import Mathlib

/-!
Verification of the chaosclaw core against its specification.

Shallow embedding of the core modules:
- `src/chaosclaw/core/reputation.py` (data model, score normalization)
- `src/chaosclaw/core/filters.py` (announce decision)
- `src/chaosclaw/core/scoring.py` (trust buckets, tweet rendering)
- `src/chaosclaw/listeners/erc8004_watcher.py` (poll cycle, dedup, reputation fetch)
- `src/chaosclaw/publishers/x_poster.py` (rate-limited publisher)

Python integers are modelled as `Int` (or `Nat` where the source value is a
non-negative identifier), Python `//` as `Int.fdiv` (floor division), Python
`str(...)` as `Nat.repr` / `Int.repr`, Python strings as `String` with the
exact character sequences stored in the source files (the emoji in
`scoring.py` are stored as multi-character sequences, e.g. the lobster is the
four characters `ðŸ¦ž`, and Python `len` counts them as
such), and fallible external calls (RPC, network) as explicit `Except` or
oracle parameters.
-/

namespace ChaosClaw

/-! ### Reputation data model (`src/chaosclaw/core/reputation.py`) -/

/-- The five reputation dimensions (`ReputationDimension` enum). -/
inductive ReputationDimension
  | quality
  | reliability
  | speed
  | safety
  | alignment
deriving DecidableEq

/-- The `.value` string of each enum member. -/
def ReputationDimension.value : ReputationDimension → String
  | .quality => "quality"
  | .reliability => "reliability"
  | .speed => "speed"
  | .safety => "safety"
  | .alignment => "alignment"

/-- Score for a single reputation dimension (`DimensionScore` dataclass). -/
structure DimensionScore where
  dimension : ReputationDimension
  value : Int
  raw_value : Int
  decimals : Nat
deriving DecidableEq

/-- Normalization logic of `DimensionScore.from_contract`
(reputation.py lines 39-46), also inlined in
`ERC8004Watcher._fetch_reputation` (erc8004_watcher.py lines 371-378):
if `decimals > 0` divide by `10 ** decimals` (Python `//`, floor division,
modelled by `Int.fdiv`), then clamp to `[0, 100]` via `max(0, min(100, _))`. -/
def normalize (raw_value : Int) (decimals : Nat) : Int :=
  let normalized := if 0 < decimals then Int.fdiv raw_value (10 ^ decimals) else raw_value
  max 0 (min 100 normalized)

/-- `DimensionScore.from_contract`. -/
def DimensionScore.from_contract (dimension : ReputationDimension)
    (raw_value : Int) (decimals : Nat) : DimensionScore :=
  { dimension := dimension
    value := normalize raw_value decimals
    raw_value := raw_value
    decimals := decimals }

/-- Complete trust profile for an agent (`AgentTrust` dataclass). -/
structure AgentTrust where
  agent_id : Nat
  owner : String
  uri : Option String
  quality : Option DimensionScore
  reliability : Option DimensionScore
  speed : Option DimensionScore
  safety : Option DimensionScore
  alignment : Option DimensionScore
  feedback_count : Nat
  average_score : Int
  registered_at_block : Option Nat
  tx_hash : Option String
  has_reputation : Bool
  registered_via_chaoschain : Bool
deriving DecidableEq

/-- The `dimensions` property: all non-None dimension scores, in field order. -/
def AgentTrust.dimensions (a : AgentTrust) : List DimensionScore :=
  [a.quality, a.reliability, a.speed, a.safety, a.alignment].filterMap id

/-! ### Filter engine (`src/chaosclaw/core/filters.py`) -/

/-- Configuration for trust-based filtering (`TrustFilter` dataclass). -/
structure TrustFilter where
  min_trust_score : Int
  announce_chaoschain_registrations : Bool
  announce_with_any_reputation : Bool
deriving DecidableEq

/-- The dataclass field defaults: `min_trust_score=60`, both flags `True`.
This is the config `should_announce` builds when called with `config=None`. -/
def TrustFilter.default : TrustFilter :=
  { min_trust_score := 60
    announce_chaoschain_registrations := true
    announce_with_any_reputation := true }

/-- `should_announce(agent, config)` (filters.py lines 25-56): three rules in
fixed priority order, each an early `return True`. -/
def should_announce (agent : AgentTrust) (config : TrustFilter) : Bool :=
  if config.announce_chaoschain_registrations && agent.registered_via_chaoschain then
    true
  else if config.announce_with_any_reputation && agent.has_reputation then
    true
  else if config.min_trust_score ≤ agent.average_score then
    true
  else
    false

/-! ### Scoring and tweet rendering (`src/chaosclaw/core/scoring.py`) -/

/-- `trust_bucket(score)` (scoring.py lines 29-48). -/
def trust_bucket (score : Int) : String :=
  if 90 ≤ score then "exceptional"
  else if 70 ≤ score then "high"
  else if 50 ≤ score then "moderate"
  else if 25 ≤ score then "low"
  else "minimal"

/-- `trust_emoji(score)` (scoring.py lines 51-70), with the emoji strings
exactly as stored in the source file (each is a 3- or 4-character sequence). -/
def trust_emoji (score : Int) : String :=
  if 90 ≤ score then "ðŸŸ¢"
  else if 70 ≤ score then "ðŸ”µ"
  else if 50 ≤ score then "ðŸŸ¡"
  else if 25 ≤ score then "ðŸŸ "
  else "âšª"

/-- One entry of `dim_parts` in `format_tweet`:
`f"{d.dimension.value[:3].upper()}:{d.value}"`. -/
def dim_part (d : DimensionScore) : String :=
  (d.dimension.value.take 3).toUpper ++ ":" ++ Int.repr d.value

/-- The `dim_summary` value built in `format_tweet` (scoring.py lines 113-117):
empty when there are no dimensions, otherwise a newline, the chart emoji and
the first three abbreviated dimension entries joined by `" | "`. -/
def dim_summary (agent : AgentTrust) : String :=
  if agent.dimensions.isEmpty then ""
  else "\nðŸ“Š " ++
    String.intercalate " | " ((agent.dimensions.take 3).map dim_part)

/-- The full tweet template of `format_tweet` (scoring.py lines 120-128). -/
def full_tweet (agent : AgentTrust) (network : String) : String :=
  "ðŸ¦ž New AI agent verified on ERC-8004!\n\nAgent #" ++
    Nat.repr agent.agent_id ++
    "\n" ++ trust_emoji agent.average_score ++
    " Trust: " ++ Int.repr agent.average_score ++
    "/100 (" ++ trust_bucket agent.average_score ++ ")" ++ dim_summary agent ++
    "\n\nVerify: /chaoschain verify " ++ Nat.repr agent.agent_id ++
    "\nðŸ”— https://8004scan.io/agents/" ++ network ++ "/" ++
    Nat.repr agent.agent_id ++
    "\n\n#ERC8004 #AIAgents @Ch40sChain"

/-- The shorter fallback template of `format_tweet` (scoring.py lines 133-141),
omitting the bucket name and the dimension summary. -/
def fallback_tweet (agent : AgentTrust) (network : String) : String :=
  "ðŸ¦ž New AI agent verified!\n\nAgent #" ++
    Nat.repr agent.agent_id ++
    "\n" ++ trust_emoji agent.average_score ++
    " Trust: " ++ Int.repr agent.average_score ++
    "/100\n\n/chaoschain verify " ++ Nat.repr agent.agent_id ++
    "\nðŸ”— 8004scan.io/agents/" ++ network ++ "/" ++
    Nat.repr agent.agent_id ++
    "\n\n#ERC8004 @Ch40sChain"

/-- `format_tweet(agent, network)` (scoring.py lines 99-143): build the full
tweet; if its length exceeds 280 characters, use the fallback template. -/
def format_tweet (agent : AgentTrust) (network : String) : String :=
  if 280 < (full_tweet agent network).length then fallback_tweet agent network
  else full_tweet agent network

/-! ### Registry watcher (`src/chaosclaw/listeners/erc8004_watcher.py`) -/

/-- A decoded Transfer event log: `event.args.get("from")` and
`event.args.get("tokenId")`, either of which may be absent. Addresses are
modelled already checksummed, so `Web3.to_checksum_address` is the identity
and the mint test compares the from-address to the zero address directly. -/
structure EventLog where
  fromAddr : Option String
  tokenId : Option Nat
deriving DecidableEq

/-- `"0x" + "0" * 40`, the zero address mints are detected against. -/
def zero_address : String := "0x0000000000000000000000000000000000000000"

/-- Watcher state: the checkpoint `last_block` plus the dedup set
`seen_agents` (a Python set of ids, modelled as a list with membership). -/
structure WatcherState where
  last_block : Option Int
  seen_agents : List Nat
deriving DecidableEq

/-- The event loop of `_poll_once` (erc8004_watcher.py lines 227-272):
skip events without a from-address, non-mints, events without a tokenId and
already-seen ids; otherwise add the id to `seen_agents` first and then
attempt enrichment. `oracle id` models the outcome of
`await self._fetch_agent_trust(id, ...)`: `true` when it returns a profile
(which is then yielded), `false` when it raises (the failure is logged and
the entity skipped). Returns the final state and the ids whose profiles were
yielded, in order. -/
def processEvents (oracle : Nat → Bool) :
    List EventLog → WatcherState → WatcherState × List Nat
  | [], s => (s, [])
  | ⟨none, _⟩ :: rest, s => processEvents oracle rest s
  | ⟨some _, none⟩ :: rest, s => processEvents oracle rest s
  | ⟨some addr, some agent_id⟩ :: rest, s =>
    if addr ≠ zero_address then processEvents oracle rest s
    else if agent_id ∈ s.seen_agents then processEvents oracle rest s
    else
      if oracle agent_id then
        ((processEvents oracle rest
            { s with seen_agents := agent_id :: s.seen_agents }).1,
          agent_id ::
            (processEvents oracle rest
              { s with seen_agents := agent_id :: s.seen_agents }).2)
      else
        processEvents oracle rest
          { s with seen_agents := agent_id :: s.seen_agents }

/-- The scan-range start computed in `_poll_once` (lines 194-209): on first
run (no checkpoint) `max(0, current_block - lookback_blocks)`, otherwise
`last_block + 1`. -/
def scanFromBlock (last_block : Option Int) (current_block lookback_blocks : Int) : Int :=
  match last_block with
  | none => max 0 (current_block - lookback_blocks)
  | some lb => lb + 1

/-- The `try/except` around `get_logs` (erc8004_watcher.py lines 218-225):
on success the fetched events, on a raised exception the failure is logged
and the empty event list is substituted. -/
def eventsOrEmpty : Except Unit (List EventLog) → List EventLog
  | .ok es => es
  | .error _ => []

/-- One poll cycle, `_poll_once` (erc8004_watcher.py lines 188-274).
`fetchResult` models the `get_logs` range fetch. If the computed start block
exceeds the chain height the cycle is a no-op; otherwise the events (empty
on a failed fetch) are processed and line 274 unconditionally sets
`last_block = current_block`. -/
def pollOnce (lookback_blocks : Int) (oracle : Nat → Bool)
    (fetchResult : Except Unit (List EventLog)) (current_block : Int)
    (s : WatcherState) : WatcherState × List Nat :=
  if current_block < scanFromBlock s.last_block current_block lookback_blocks then
    (s, [])
  else
    ({ (processEvents oracle (eventsOrEmpty fetchResult) s).1 with
        last_block := some current_block },
      (processEvents oracle (eventsOrEmpty fetchResult) s).2)

/-- The inputs one cycle of `watch()` receives from the outside world:
the chain height, the range-fetch outcome and the per-id enrichment
outcomes. -/
structure PollCycle where
  current_block : Int
  fetchResult : Except Unit (List EventLog)
  oracle : Nat → Bool

/-- Repeated poll cycles of the `watch()` loop (erc8004_watcher.py lines
177-186), threading the state and concatenating the yielded ids. -/
def pollMany (lookback_blocks : Int) :
    List PollCycle → WatcherState → WatcherState × List Nat
  | [], s => (s, [])
  | c :: cs, s =>
    ((pollMany lookback_blocks cs
        (pollOnce lookback_blocks c.oracle c.fetchResult c.current_block s).1).1,
      (pollOnce lookback_blocks c.oracle c.fetchResult c.current_block s).2 ++
        (pollMany lookback_blocks cs
          (pollOnce lookback_blocks c.oracle c.fetchResult c.current_block s).1).2)

/-- The dict returned by `_fetch_reputation` on success. -/
structure ReputationData where
  feedback_count : Nat
  average : Int
deriving DecidableEq

/-- `_fetch_reputation` (erc8004_watcher.py lines 332-400). `getClients` and
`getSummary` model the two contract calls, `.error` a raised exception (the
whole body is a single `try` that returns `None` on failure). The second
component of the result records the address list passed to `getSummary`
(`none` when that call is never made). -/
def fetch_reputation (getClients : Except Unit (List String))
    (getSummary : List String → Except Unit (Nat × Int × Nat)) :
    Option ReputationData × Option (List String) :=
  match getClients with
  | .error _ => (none, none)
  | .ok clients =>
    if clients.isEmpty then
      (some { feedback_count := 0, average := 0 }, none)
    else
      match getSummary clients with
      | .error _ => (none, some clients)
      | .ok (count, value, value_decimals) =>
        (some { feedback_count := count, average := normalize value value_decimals },
          some clients)

/-! ### Rate-limited publisher (`src/chaosclaw/publishers/x_poster.py`) -/

/-- The eviction loop shared by `_check_rate_limit` and `tweets_remaining`
(x_poster.py lines 157-162): pop entries from the front of the deque while
the oldest timestamp is before `now - 3600`. Timestamps (`time.time()`
float values) are modelled as rationals. -/
def evictOld (now : ℚ) (recent_tweets : List ℚ) : List ℚ :=
  recent_tweets.dropWhile (fun t => decide (t < now - 3600))

/-- `_check_rate_limit` (x_poster.py lines 150-165): evict old entries, then
allow posting iff fewer than `max_tweets_per_hour` timestamps remain.
Returns the decision together with the evicted deque (the Python method
mutates `self.recent_tweets` in place). -/
def check_rate_limit (max_tweets_per_hour : Nat) (now : ℚ)
    (recent_tweets : List ℚ) : Bool × List ℚ :=
  (decide ((evictOld now recent_tweets).length < max_tweets_per_hour),
    evictOld now recent_tweets)

/-- The observable outcome of one `XPoster.post` call: its boolean return
value, the rate-limit window afterwards, and whether a network publish was
attempted. -/
structure PostResult where
  ok : Bool
  recent_tweets : List ℚ
  attempted : Bool
deriving DecidableEq

/-- `XPoster.post` (x_poster.py lines 78-148). `dry_run` mirrors
`self.dry_run`, `has_client` mirrors `self.client is not None`, and
`publish_ok` models the outcome of the `create_tweet` network call
(`false` = raised `TweepyException`). The branches in source order: rate
check first (returning false when at capacity), then dry-run (log, record
the timestamp, return true), then the missing-client guard, then the real
publish (record the timestamp and return true on success, return false
without recording on failure). Both `time.time()` readings within one call
(in `_check_rate_limit` and `_record_tweet`) are modelled by the single
instant `now`. The first guard `max_tweets_per_hour ≤ length` is the
negation of the `_check_rate_limit` condition `length < max_tweets_per_hour`
on the evicted window. -/
def post (max_tweets_per_hour : Nat) (dry_run has_client publish_ok : Bool)
    (now : ℚ) (recent_tweets : List ℚ) : PostResult :=
  if max_tweets_per_hour ≤ (evictOld now recent_tweets).length then
    { ok := false, recent_tweets := evictOld now recent_tweets, attempted := false }
  else if dry_run then
    { ok := true, recent_tweets := evictOld now recent_tweets ++ [now],
      attempted := false }
  else if has_client = false then
    { ok := false, recent_tweets := evictOld now recent_tweets, attempted := false }
  else if publish_ok then
    { ok := true, recent_tweets := evictOld now recent_tweets ++ [now],
      attempted := true }
  else
    { ok := false, recent_tweets := evictOld now recent_tweets, attempted := true }

/-! ### Concrete sample profiles used by witnesses -/

/-- A concrete profile registered via the special channel, with no reputation. -/
def sampleChaosAgent : AgentTrust :=
  { agent_id := 1, owner := "0xabc", uri := none, quality := none,
    reliability := none, speed := none, safety := none, alignment := none,
    feedback_count := 0, average_score := 0, registered_at_block := none,
    tx_hash := none, has_reputation := false,
    registered_via_chaoschain := true }

/-- A concrete flagless profile with score 59, below the default threshold 60. -/
def sampleLowAgent : AgentTrust :=
  { agent_id := 2, owner := "0xabc", uri := none, quality := none,
    reliability := none, speed := none, safety := none, alignment := none,
    feedback_count := 0, average_score := 59, registered_at_block := none,
    tx_hash := none, has_reputation := false,
    registered_via_chaoschain := false }

/-- A profile with the largest representable entity id (2^63 - 1) and all five
dimensions present at value 100. -/
def sampleMaxAgent : AgentTrust :=
  { agent_id := 9223372036854775807, owner := "0xabc", uri := none,
    quality := some (DimensionScore.from_contract .quality 100 0),
    reliability := some (DimensionScore.from_contract .reliability 100 0),
    speed := some (DimensionScore.from_contract .speed 100 0),
    safety := some (DimensionScore.from_contract .safety 100 0),
    alignment := some (DimensionScore.from_contract .alignment 100 0),
    feedback_count := 5, average_score := 100, registered_at_block := none,
    tx_hash := none, has_reputation := true,
    registered_via_chaoschain := false }

/-- A profile with entity id 0 and all five dimensions present at value 100. -/
def sampleZeroAgent : AgentTrust :=
  { sampleMaxAgent with agent_id := 0 }

/-- A mint event (from the zero address) for entity id 7. -/
def mintEvent7 : EventLog :=
  { fromAddr := some zero_address, tokenId := some 7 }

/-- A poll cycle delivering `mintEvent7` whose enrichment fetch fails. -/
def cycleEnrichFail : PollCycle :=
  { current_block := 10, fetchResult := .ok [mintEvent7], oracle := fun _ => false }

/-- A poll cycle delivering `mintEvent7` again, enrichment now succeeding. -/
def cycleEnrichOk : PollCycle :=
  { current_block := 20, fetchResult := .ok [mintEvent7], oracle := fun _ => true }

/-- The initial watcher state: no checkpoint, nothing seen. -/
def initialState : WatcherState :=
  { last_block := none, seen_agents := [] }

/-! ### Claim theorems: pure core -/

/-- C3: `should_announce(profile, config)` is true iff
(announce_special_channel AND registered_via_special_channel) OR
(announce_with_any_reputation AND has_reputation) OR
(average_score >= min_trust_score), the rules being evaluated in that
priority order with short-circuit; under the default config the
special-channel flag alone forces true, and a profile with both flags false
and a score below the threshold is rejected. -/
theorem should_announce_spec (agent : AgentTrust) (config : TrustFilter) :
    (should_announce agent config = true ↔
      ((config.announce_chaoschain_registrations = true ∧
          agent.registered_via_chaoschain = true) ∨
        (config.announce_with_any_reputation = true ∧ agent.has_reputation = true) ∨
        config.min_trust_score ≤ agent.average_score))
    ∧ (agent.registered_via_chaoschain = true →
        should_announce agent TrustFilter.default = true)
    ∧ (agent.registered_via_chaoschain = false → agent.has_reputation = false →
        agent.average_score < config.min_trust_score →
        should_announce agent config = false) := by
  refine ⟨?_, ?_, ?_⟩
  · unfold should_announce
    split_ifs with h1 h2 h3
    · simp only [Bool.and_eq_true] at h1
      simp only [true_iff]
      exact Or.inl h1
    · simp only [Bool.and_eq_true] at h2
      simp only [true_iff]
      exact Or.inr (Or.inl h2)
    · simp only [true_iff]
      exact Or.inr (Or.inr h3)
    · simp only [false_iff]
      rintro (⟨ha, hb⟩ | ⟨ha, hb⟩ | hle)
      · exact h1 (by simp [ha, hb])
      · exact h2 (by simp [ha, hb])
      · exact h3 hle
  · intro h
    unfold should_announce TrustFilter.default
    simp [h]
  · intro h1 h2 h3
    unfold should_announce
    rw [h1, h2]
    simp [not_le.mpr h3]

/-- Witness for `should_announce_spec`: a concrete special-channel profile is
announced under the default config, and a concrete flagless low-score profile
is rejected. -/
theorem should_announce_spec_witness :
    should_announce sampleChaosAgent TrustFilter.default = true
    ∧ should_announce sampleLowAgent TrustFilter.default = false := by
  constructor
  · exact (should_announce_spec sampleChaosAgent TrustFilter.default).2.1 rfl
  · exact (should_announce_spec sampleLowAgent TrustFilter.default).2.2 rfl rfl
      (by norm_num [sampleLowAgent, TrustFilter.default])

/-- C7: `normalize(raw, decimals)` returns a value in `[0, 100]` for any
non-negative raw value, and is the identity on already-normalized values:
`normalize v 0 = v` for `v` in `[0, 100]`. -/
theorem normalize_range_and_idempotent (raw : Int) (decimals : Nat) (v : Int) :
    (0 ≤ raw → 0 ≤ normalize raw decimals ∧ normalize raw decimals ≤ 100)
    ∧ (0 ≤ v → v ≤ 100 → normalize v 0 = v) := by
  constructor
  · intro _
    unfold normalize
    exact ⟨le_max_left 0 _, max_le (by norm_num) (min_le_left _ _)⟩
  · intro h0 h100
    show max 0 (min 100 v) = v
    rw [min_eq_right h100, max_eq_right h0]

/-- Witness for `normalize_range_and_idempotent` at raw=12345, decimals=2, v=57:
`normalize 12345 2` lies in range and `normalize 57 0 = 57`. -/
theorem normalize_range_and_idempotent_witness :
    (0 ≤ normalize 12345 2 ∧ normalize 12345 2 ≤ 100) ∧ normalize 57 0 = 57 :=
  ⟨(normalize_range_and_idempotent 12345 2 57).1 (by norm_num),
    (normalize_range_and_idempotent 12345 2 57).2 (by norm_num) (by norm_num)⟩

/-- C8: for every score in `[0, 100]`, `trust_bucket` returns exactly one of
the five bucket names, partitioning the range at the boundaries 25/50/70/90:
exceptional for 90 and above, high on `[70, 90)`, moderate on `[50, 70)`,
low on `[25, 50)`, minimal below 25. -/
theorem trust_bucket_partition (s : Int) (h0 : 0 ≤ s) (h100 : s ≤ 100) :
    (trust_bucket s = "exceptional" ↔ 90 ≤ s)
    ∧ (trust_bucket s = "high" ↔ 70 ≤ s ∧ s < 90)
    ∧ (trust_bucket s = "moderate" ↔ 50 ≤ s ∧ s < 70)
    ∧ (trust_bucket s = "low" ↔ 25 ≤ s ∧ s < 50)
    ∧ (trust_bucket s = "minimal" ↔ s < 25)
    ∧ (trust_bucket s = "exceptional" ∨ trust_bucket s = "high" ∨
        trust_bucket s = "moderate" ∨ trust_bucket s = "low" ∨
        trust_bucket s = "minimal") := by
  unfold trust_bucket
  split_ifs with h1 h2 h3 h4 <;>
    refine ⟨?_, ?_, ?_, ?_, ?_, ?_⟩ <;>
    simp only [String.reduceEq, true_iff, false_iff, iff_true, iff_false,
      true_or, or_true, false_or, or_false, not_and, not_lt, not_le] <;>
    first
      | trivial
      | omega

/-- Witness for `trust_bucket_partition` at score 70: bucket is high. -/
theorem trust_bucket_partition_witness : trust_bucket 70 = "high" :=
  (trust_bucket_partition 70 (by norm_num) (by norm_num)).2.1.mpr (by norm_num)

/-- Every branch of `trust_emoji` is a string of at most 4 characters. -/
theorem trust_emoji_length_le (s : Int) : (trust_emoji s).length ≤ 4 := by
  unfold trust_emoji
  split_ifs <;> decide

/-- The decimal rendering of an id below `2^63` has at most 19 digits. -/
theorem nat_repr_length_le_19 (n : Nat) (h : n < 2 ^ 63) :
    (Nat.repr n).length ≤ 19 :=
  Nat.repr_length n 19 (by norm_num) (lt_of_lt_of_le h (by norm_num))

/-- The decimal rendering of a score in `[0, 100]` has at most 3 digits. -/
theorem int_repr_length_le_three (s : Int) (h0 : 0 ≤ s) (h100 : s ≤ 100) :
    (Int.repr s).length ≤ 3 := by
  obtain ⟨n, rfl⟩ := Int.eq_ofNat_of_zero_le h0
  have hn : n ≤ 100 := by exact_mod_cast h100
  show (Nat.repr n).length ≤ 3
  exact Nat.repr_length n 3 (by norm_num) (by omega)

/-- C5: the rendered announcement is at most 280 characters for every profile
with a representable entity id (below 2^63) and a score in `[0, 100]`; when
the full rendering exceeds 280 characters, the shorter fallback template
omitting dimension detail is used. -/
theorem format_tweet_length_le (agent : AgentTrust)
    (hid : agent.agent_id < 2 ^ 63)
    (h0 : 0 ≤ agent.average_score) (h100 : agent.average_score ≤ 100) :
    (format_tweet agent "mainnet").length ≤ 280
    ∧ (∀ network : String, 280 < (full_tweet agent network).length →
        format_tweet agent network = fallback_tweet agent network) := by
  constructor
  · unfold format_tweet
    split_ifs with hfull
    · have h1 := nat_repr_length_le_19 agent.agent_id hid
      have h2 := int_repr_length_le_three agent.average_score h0 h100
      have h3 := trust_emoji_length_le agent.average_score
      unfold fallback_tweet
      simp only [String.length_append]
      have e1 : ("ðŸ¦ž New AI agent verified!\n\nAgent #" : String).length = 36 := by
        decide
      have e2 : ("\n" : String).length = 1 := by decide
      have e3 : (" Trust: " : String).length = 8 := by decide
      have e4 : ("/100\n\n/chaoschain verify " : String).length = 25 := by decide
      have e5 : ("\nðŸ”— 8004scan.io/agents/" : String).length = 25 := by
        decide
      have e6 : ("mainnet" : String).length = 7 := by decide
      have e7 : ("/" : String).length = 1 := by decide
      have e8 : ("\n\n#ERC8004 @Ch40sChain" : String).length = 22 := by decide
      omega
    · omega
  · intro network hgt
    unfold format_tweet
    rw [if_pos hgt]

/-- Witness for `format_tweet_length_le`: the rendering is at most 280
characters for the profile with entity id `2^63 - 1` and all five dimensions
at 100, and for the profile with entity id 0 and all five dimensions at 100. -/
theorem format_tweet_length_le_witness :
    (format_tweet sampleMaxAgent "mainnet").length ≤ 280
    ∧ (format_tweet sampleZeroAgent "mainnet").length ≤ 280 :=
  ⟨(format_tweet_length_le sampleMaxAgent (by decide) (by decide) (by decide)).1,
    (format_tweet_length_le sampleZeroAgent (by decide) (by decide) (by decide)).1⟩

/-! ### Claim theorems: registry watcher -/

/-- Core invariants of one pass of the `_poll_once` event loop: the seen set
only grows, an id already seen is never yielded, each id is yielded at most
once, and every yielded id ends up in the seen set. -/
theorem processEvents_spec (oracle : Nat → Bool) (es : List EventLog) :
    ∀ (s : WatcherState) (a : Nat),
      (a ∈ s.seen_agents → a ∈ (processEvents oracle es s).1.seen_agents)
      ∧ (a ∈ s.seen_agents → (processEvents oracle es s).2.count a = 0)
      ∧ (processEvents oracle es s).2.count a ≤ 1
      ∧ (a ∈ (processEvents oracle es s).2 →
          a ∈ (processEvents oracle es s).1.seen_agents) := by
  induction es with
  | nil =>
    intro s a
    exact ⟨fun h => h, fun _ => by simp [processEvents],
      by simp [processEvents], by intro h; simp [processEvents] at h⟩
  | cons e rest ih =>
    intro s a
    obtain ⟨fa, tid⟩ := e
    cases fa with
    | none => simpa only [processEvents] using ih s a
    | some addr =>
      cases tid with
      | none => simpa only [processEvents] using ih s a
      | some b =>
        simp only [processEvents]
        by_cases hz : addr = zero_address
        · rw [if_neg (by simp [hz])]
          by_cases hb : b ∈ s.seen_agents
          · rw [if_pos hb]
            exact ih s a
          · rw [if_neg hb]
            by_cases ho : oracle b = true
            · rw [if_pos ho]
              obtain ⟨ihm, ihz, ihc, ihy⟩ :=
                ih { s with seen_agents := b :: s.seen_agents } a
              refine ⟨fun ha => ihm (List.mem_cons_of_mem _ ha), ?_, ?_, ?_⟩
              · intro ha
                have hab : ¬(b = a) := fun h => hb (h.symm ▸ ha)
                rw [List.count_cons]
                simp only [beq_iff_eq]
                rw [if_neg hab, ihz (List.mem_cons_of_mem _ ha)]
              · by_cases hab : b = a
                · subst hab
                  rw [List.count_cons, ihz (List.mem_cons_self _ _)]
                  simp
                · rw [List.count_cons]
                  simp only [beq_iff_eq]
                  rw [if_neg hab]
                  simpa using ihc
              · intro ha
                rcases List.mem_cons.mp ha with h | h
                · subst h
                  exact ihm (List.mem_cons_self _ _)
                · exact ihy h
            · rw [if_neg ho]
              obtain ⟨ihm, ihz, ihc, ihy⟩ :=
                ih { s with seen_agents := b :: s.seen_agents } a
              exact ⟨fun ha => ihm (List.mem_cons_of_mem _ ha),
                fun ha => ihz (List.mem_cons_of_mem _ ha), ihc, ihy⟩
        · rw [if_pos hz]
          exact ih s a

/-- Whenever a mint event for an id is in the processed range, the id is in
the seen set afterwards, regardless of whether its enrichment succeeded:
the id is marked seen before enrichment is attempted. -/
theorem processEvents_mint_marks_seen (oracle : Nat → Bool) (es : List EventLog) :
    ∀ (s : WatcherState) (a : Nat),
      (∃ e ∈ es, e.fromAddr = some zero_address ∧ e.tokenId = some a) →
      a ∈ (processEvents oracle es s).1.seen_agents := by
  induction es with
  | nil =>
    intro s a h
    simp at h
  | cons e rest ih =>
    intro s a h
    obtain ⟨fa, tid⟩ := e
    obtain ⟨e2, he2, hfa, hti⟩ := h
    rcases List.mem_cons.mp he2 with rfl | hmem
    · have hfa2 : fa = some zero_address := hfa
      have hti2 : tid = some a := hti
      subst hfa2 hti2
      simp only [processEvents]
      rw [if_neg (by simp)]
      by_cases hb : a ∈ s.seen_agents
      · rw [if_pos hb]
        exact (processEvents_spec oracle rest s a).1 hb
      · rw [if_neg hb]
        by_cases ho : oracle a = true
        · rw [if_pos ho]
          exact (processEvents_spec oracle rest
            { s with seen_agents := a :: s.seen_agents } a).1 (List.mem_cons_self _ _)
        · rw [if_neg ho]
          exact (processEvents_spec oracle rest
            { s with seen_agents := a :: s.seen_agents } a).1 (List.mem_cons_self _ _)
    · have hrest : ∃ e ∈ rest, e.fromAddr = some zero_address ∧ e.tokenId = some a :=
        ⟨e2, hmem, hfa, hti⟩
      cases fa with
      | none => simpa only [processEvents] using ih s a hrest
      | some addr =>
        cases tid with
        | none => simpa only [processEvents] using ih s a hrest
        | some b =>
          simp only [processEvents]
          by_cases hz : addr = zero_address
          · rw [if_neg (by simp [hz])]
            by_cases hb : b ∈ s.seen_agents
            · rw [if_pos hb]
              exact ih s a hrest
            · rw [if_neg hb]
              by_cases ho : oracle b = true
              · rw [if_pos ho]
                exact ih { s with seen_agents := b :: s.seen_agents } a hrest
              · rw [if_neg ho]
                exact ih { s with seen_agents := b :: s.seen_agents } a hrest
          · rw [if_pos hz]
            exact ih s a hrest

/-- The `processEvents_spec` invariants lifted through one `_poll_once`
cycle. -/
theorem pollOnce_spec (L : Int) (oracle : Nat → Bool)
    (f : Except Unit (List EventLog)) (cb : Int) (s : WatcherState) (a : Nat) :
    (a ∈ s.seen_agents → a ∈ (pollOnce L oracle f cb s).1.seen_agents)
    ∧ (a ∈ s.seen_agents → (pollOnce L oracle f cb s).2.count a = 0)
    ∧ (pollOnce L oracle f cb s).2.count a ≤ 1
    ∧ (a ∈ (pollOnce L oracle f cb s).2 →
        a ∈ (pollOnce L oracle f cb s).1.seen_agents) := by
  unfold pollOnce
  split_ifs with hlt
  · exact ⟨fun h => h, fun _ => by simp, by simp, by intro h; simp at h⟩
  · obtain ⟨m, z, c, y⟩ := processEvents_spec oracle (eventsOrEmpty f) s a
    exact ⟨fun h => m h, fun h => z h, c, fun h => y h⟩

/-- The `processEvents_spec` invariants lifted through a run of poll
cycles. -/
theorem pollMany_spec (L : Int) (cs : List PollCycle) :
    ∀ (s : WatcherState) (a : Nat),
      (a ∈ s.seen_agents → a ∈ (pollMany L cs s).1.seen_agents)
      ∧ (a ∈ s.seen_agents → (pollMany L cs s).2.count a = 0)
      ∧ (pollMany L cs s).2.count a ≤ 1
      ∧ (a ∈ (pollMany L cs s).2 → a ∈ (pollMany L cs s).1.seen_agents) := by
  induction cs with
  | nil =>
    intro s a
    exact ⟨fun h => h, fun _ => by simp [pollMany],
      by simp [pollMany], by intro h; simp [pollMany] at h⟩
  | cons c cs ih =>
    intro s a
    obtain ⟨m1, z1, c1, y1⟩ := pollOnce_spec L c.oracle c.fetchResult c.current_block s a
    obtain ⟨m2, z2, c2, y2⟩ :=
      ih (pollOnce L c.oracle c.fetchResult c.current_block s).1 a
    simp only [pollMany, List.count_append, List.mem_append]
    refine ⟨fun h => m2 (m1 h), fun h => ?_, ?_, ?_⟩
    · rw [z1 h, z2 (m1 h)]
    · by_cases hmem : a ∈ (pollOnce L c.oracle c.fetchResult c.current_block s).2
      · have h2 := z2 (y1 hmem)
        omega
      · have h1 := List.count_eq_zero.mpr hmem
        omega
    · rintro (h | h)
      · exact m2 (y1 h)
      · exact y2 h

/-- Runs of poll cycles compose: the state threads through and the yield
lists concatenate. -/
theorem pollMany_append (L : Int) (cs1 cs2 : List PollCycle) :
    ∀ s : WatcherState,
      pollMany L (cs1 ++ cs2) s
        = ((pollMany L cs2 (pollMany L cs1 s).1).1,
            (pollMany L cs1 s).2 ++ (pollMany L cs2 (pollMany L cs1 s).1).2) := by
  induction cs1 with
  | nil =>
    intro s
    simp [pollMany]
  | cons c cs ih =>
    intro s
    simp only [List.cons_append, pollMany, List.append_eq, ih, List.append_assoc]

/-- C2: across any run of poll cycles the watcher yields a profile for each
entity id at most once; an id already in `seen_entity_ids` is never yielded;
an id that is in the seen set after a prefix of the run without having been
yielded there (for example because its enrichment fetch failed) is never
yielded in any continuation of the run; and a mint event for an id marks it
seen regardless of the enrichment outcome (the id is added to the seen set
before enrichment is attempted). -/
theorem watcher_yields_each_id_at_most_once (L : Int) (s0 : WatcherState)
    (cs1 cs2 : List PollCycle) (a : Nat) :
    (pollMany L (cs1 ++ cs2) s0).2.count a ≤ 1
    ∧ (a ∈ s0.seen_agents → (pollMany L (cs1 ++ cs2) s0).2.count a = 0)
    ∧ (a ∈ (pollMany L cs1 s0).1.seen_agents → a ∉ (pollMany L cs1 s0).2 →
        (pollMany L (cs1 ++ cs2) s0).2.count a = 0)
    ∧ (∀ (oracle : Nat → Bool) (es : List EventLog) (s : WatcherState),
        (∃ e ∈ es, e.fromAddr = some zero_address ∧ e.tokenId = some a) →
        a ∈ (processEvents oracle es s).1.seen_agents) := by
  refine ⟨(pollMany_spec L (cs1 ++ cs2) s0 a).2.2.1,
    (pollMany_spec L (cs1 ++ cs2) s0 a).2.1, ?_, ?_⟩
  · intro hseen hys
    rw [pollMany_append]
    simp only [List.count_append]
    rw [List.count_eq_zero.mpr hys, (pollMany_spec L cs2 _ a).2.1 hseen]
  · intro oracle es s h
    exact processEvents_mint_marks_seen oracle es s a h

/-- Witness for `watcher_yields_each_id_at_most_once`: the same mint event
for id 7 is delivered in two cycles; enrichment fails in the first cycle, so
id 7 is marked seen yet not yielded, and it is never yielded afterwards even
though enrichment would succeed in the second cycle. -/
theorem watcher_yields_each_id_at_most_once_witness :
    (7 ∈ (pollMany 1000 [cycleEnrichFail] initialState).1.seen_agents
      ∧ 7 ∉ (pollMany 1000 [cycleEnrichFail] initialState).2)
    ∧ (pollMany 1000 ([cycleEnrichFail] ++ [cycleEnrichOk]) initialState).2.count 7 = 0 :=
  ⟨⟨by decide, by decide⟩,
    (watcher_yields_each_id_at_most_once 1000 initialState
      [cycleEnrichFail] [cycleEnrichOk] 7).2.2.1 (by decide) (by decide)⟩

/-- C1, divergence of the code from the claim: with checkpoint 100, chain
height 110 and a failing range fetch (`get_logs` raises), `_poll_once`
yields nothing yet still ends with `last_block = 110` — the failed range
101-110 is skipped, not retried on the next cycle as the claim requires. -/
theorem pollOnce_advances_checkpoint_on_failed_fetch :
    pollOnce 1000 (fun _ => true) (.error ()) 110
        { last_block := some 100, seen_agents := [] }
      = ({ last_block := some 110, seen_agents := [] }, []) := by
  decide

/-- C9: when the client list fetched by `getClients` is empty,
`_fetch_reputation` returns zero feedback and never calls `getSummary`;
when the list is non-empty, `getSummary` is called with exactly that list. -/
theorem fetch_reputation_clients_scope
    (gc : Except Unit (List String))
    (gs : List String → Except Unit (Nat × Int × Nat)) (l : List String) :
    (gc = .ok [] →
      fetch_reputation gc gs = (some { feedback_count := 0, average := 0 }, none))
    ∧ (gc = .ok l → l ≠ [] → (fetch_reputation gc gs).2 = some l) := by
  constructor
  · rintro rfl
    rfl
  · rintro rfl hne
    simp only [fetch_reputation]
    rw [if_neg (by simpa [List.isEmpty_iff] using hne)]
    rcases hgs : gs l with e | ⟨c, v, d⟩ <;> simp [hgs]

/-- Witness for `fetch_reputation_clients_scope`: an empty client list gives
zero feedback without a summary call; a one-element client list is passed
through to the summary call. -/
theorem fetch_reputation_clients_scope_witness :
    fetch_reputation (.ok []) (fun _ => .error ())
        = (some { feedback_count := 0, average := 0 }, none)
    ∧ (fetch_reputation (.ok ["0xa"]) (fun _ => .ok (3, 80, 0))).2 = some ["0xa"] :=
  ⟨(fetch_reputation_clients_scope (.ok []) (fun _ => .error ()) []).1 rfl,
    (fetch_reputation_clients_scope (.ok ["0xa"]) (fun _ => .ok (3, 80, 0))
      ["0xa"]).2 rfl (by simp)⟩

/-- C10: on the first poll cycle (no checkpoint) the scan start block is
`max(0, current_chain_height - lookback_window)`: it is never negative, and
when the chain height is smaller than the lookback window the scan starts at
block 0. -/
theorem scanFromBlock_initial_clamped (current_block lookback_blocks : Int) :
    scanFromBlock none current_block lookback_blocks
        = max 0 (current_block - lookback_blocks)
    ∧ 0 ≤ scanFromBlock none current_block lookback_blocks
    ∧ (current_block < lookback_blocks →
        scanFromBlock none current_block lookback_blocks = 0) := by
  refine ⟨rfl, le_max_left 0 _, ?_⟩
  intro h
  show max 0 (current_block - lookback_blocks) = 0
  rw [max_eq_left (by omega)]

/-- Witness for `scanFromBlock_initial_clamped`: chain height 500 with a
1000-block lookback starts the scan at block 0. -/
theorem scanFromBlock_initial_clamped_witness :
    scanFromBlock none 500 1000 = 0 :=
  (scanFromBlock_initial_clamped 500 1000).2.2 (by norm_num)

/-! ### Claim theorems: rate-limited publisher -/

/-- A list never equals itself with one more element appended. -/
theorem ne_append_singleton (l : List ℚ) (x : ℚ) : ¬(l = l ++ [x]) := by
  intro h
  have := congrArg List.length h
  simp at this

/-- C4: stale entries are evicted before the capacity check; a call that
finds the evicted window at or above `max_per_hour` returns false without
attempting a publish and leaves the evicted window as the new state;
concretely, with max=3 per hour and dry-run on, three immediate posts
succeed, a fourth immediate post returns false, and a fourth post 3601
seconds later succeeds. -/
theorem rate_limit_window (max_tweets_per_hour : Nat)
    (dry_run has_client publish_ok : Bool) (now : ℚ) (w : List ℚ) :
    (max_tweets_per_hour ≤ (evictOld now w).length →
      (post max_tweets_per_hour dry_run has_client publish_ok now w).ok = false
      ∧ (post max_tweets_per_hour dry_run has_client publish_ok now w).attempted = false
      ∧ (post max_tweets_per_hour dry_run has_client publish_ok now w).recent_tweets
          = evictOld now w)
    ∧ (post 3 true false false 0 []).ok = true
    ∧ (post 3 true false false 0 []).recent_tweets = [0]
    ∧ (post 3 true false false 0 [0]).ok = true
    ∧ (post 3 true false false 0 [0]).recent_tweets = [0, 0]
    ∧ (post 3 true false false 0 [0, 0]).ok = true
    ∧ (post 3 true false false 0 [0, 0]).recent_tweets = [0, 0, 0]
    ∧ (post 3 true false false 0 [0, 0, 0]).ok = false
    ∧ (post 3 true false false 3601 [0, 0, 0]).ok = true := by
  constructor
  · intro h
    unfold post
    rw [if_pos h]
    exact ⟨rfl, rfl, rfl⟩
  · refine ⟨?_, ?_, ?_, ?_, ?_, ?_, ?_, ?_⟩ <;>
      norm_num [post, evictOld, List.dropWhile]

/-- Witness for `rate_limit_window`: with max=0 every call is rejected
without a publish attempt. -/
theorem rate_limit_window_witness :
    (post 0 true true true 0 []).ok = false
    ∧ (post 0 true true true 0 []).attempted = false
    ∧ (post 0 true true true 0 []).recent_tweets = evictOld 0 [] :=
  (rate_limit_window 0 true true true 0 []).1 (by norm_num [evictOld, List.dropWhile])

/-- C6: `post` returns true iff it records exactly one new timestamp:
the new window is the evicted window with `now` appended iff the call
returned true (dry-run or successful publish below capacity), and is the
evicted window unchanged iff the call returned false (rate-limited, missing
client, or failed publish). -/
theorem post_true_iff_records_timestamp (max_tweets_per_hour : Nat)
    (dry_run has_client publish_ok : Bool) (now : ℚ) (w : List ℚ) :
    ((post max_tweets_per_hour dry_run has_client publish_ok now w).ok = true ↔
      (post max_tweets_per_hour dry_run has_client publish_ok now w).recent_tweets
        = evictOld now w ++ [now])
    ∧ ((post max_tweets_per_hour dry_run has_client publish_ok now w).ok = false ↔
      (post max_tweets_per_hour dry_run has_client publish_ok now w).recent_tweets
        = evictOld now w)
    ∧ ((post max_tweets_per_hour dry_run has_client publish_ok now w).ok = true ↔
      ((evictOld now w).length < max_tweets_per_hour ∧
        (dry_run = true ∨ (has_client = true ∧ publish_ok = true)))) := by
  unfold post
  split_ifs with h1 h2 h3 h4 <;>
    refine ⟨?_, ?_, ?_⟩ <;>
    simp_all [ne_append_singleton, Nat.not_le]

end ChaosClaw
